import Mathlib

/-!
# Connection-search engine of the `transport` app — shallow embedding

This file embeds the itinerary-search engine implemented in
`hackyeah2025_backend/transport/views.py` (`ConnectionSearchView` and its
helper methods) and proves the specification claims about it.

Modelling conventions:
* A `RoutePoint` row is the structure `RP`; route ids and station ids are
  `Int` (Django integer primary keys), `sequence` is `Int`
  (`models.IntegerField`).
* `TimeField` values are minutes-of-day (`Nat`); a stored time is always
  `< 24*60`, which theorems assume via `ValidTimes` where it matters.
* `distance_from_previous_km` is a nullable non-negative decimal; it is
  modelled as `Option Nat` and Django's `Sum` (which ignores NULLs,
  composed with `or 0`) as summing `Option.getD 0`.
* Querysets: `RoutePoint` has `Meta.ordering = ['route', 'sequence']`, so
  `.filter(...).first()` returns the matching row of least `sequence`;
  this is `find?` over the sequence-sorted row list.  Python `set`s and
  `.distinct()` are modelled as deduplicated lists (their iteration order
  is unspecified in the source; no claim depends on it).
* `list.sort(key=...)` is Python's stable sort, modelled by
  `List.insertionSort` on the same key (stable for a total preorder).
* The `next_journeys` enrichment of direct connections reads the external
  `Journey` store relative to `datetime.now()`; it is presentation-only
  data (spec §4.2) and is not modelled.
-/

namespace TransportSearch

/-- One `RoutePoint` row: a stop of a route, ordered by `sequence`.
`arr`/`dep` are `scheduled_arrival_time` / `scheduled_departure_time` as
minutes-of-day, `dist` is `distance_from_previous_km`. -/
structure RP where
  route : Int
  station : Int
  sequence : Int
  arr : Nat
  dep : Nat
  dist : Option Nat
deriving DecidableEq, Repr

/-- The schedule store: the station table (ids) and the `RoutePoint` table. -/
structure DB where
  stations : List Int
  points : List RP
deriving DecidableEq, Repr

/-- All `TimeField` values are times-of-day, i.e. strictly below 24 h. -/
def ValidTimes (db : DB) : Prop :=
  ∀ p ∈ db.points, p.dep < 1440 ∧ p.arr < 1440

instance (db : DB) : Decidable (ValidTimes db) := by
  unfold ValidTimes; infer_instance

/-- A queryset of route points in `Meta.ordering` order (by `sequence`;
`route` is fixed by the callers' filters). -/
def sortPoints (l : List RP) : List RP :=
  l.insertionSort (fun a b => a.sequence ≤ b.sequence)

/-- `RoutePoint.objects.filter(route_id=rid).order_by('sequence')`. -/
def routePoints (db : DB) (rid : Int) : List RP :=
  sortPoints (db.points.filter (fun p => p.route == rid))

/-- `RoutePoint.objects.filter(route_id=rid, station_id=sid).first()` —
with the model's default ordering this is the least-`sequence` stop of
route `rid` at station `sid`. -/
def findPoint (db : DB) (rid sid : Int) : Option RP :=
  (routePoints db rid).find? (fun p => p.station == sid)

/-- `ConnectionSearchView._is_valid_route_direction`. -/
def is_valid_route_direction : Option RP → Option RP → Bool
  | some d, some a => d.sequence < a.sequence
  | _, _ => false

/-- `ConnectionSearchView._calculate_travel_time`: difference of two
times-of-day in minutes, adding one day when the raw difference is
negative. -/
def calculate_travel_time (dep arr : Nat) : Int :=
  if arr < dep then (arr : Int) + 1440 - (dep : Int)
  else (arr : Int) - (dep : Int)

/-- `ConnectionSearchView._get_route_points`: the stops of the route with
`start_sequence ≤ sequence ≤ end_sequence`, ordered by sequence. -/
def get_route_points (db : DB) (rid : Int) (s e : Int) : List RP :=
  (routePoints db rid).filter (fun p => s ≤ p.sequence && p.sequence ≤ e)

/-- `ConnectionSearchView._calculate_distance`: sum of
`distance_from_previous_km` over the given points with
`sequence > start_sequence` (`Sum` ignores NULL rows, and `or 0`). -/
def calculate_distance (pts : List RP) (s : Int) : Nat :=
  ((pts.filter (fun p => s < p.sequence)).map (fun p => p.dist.getD 0)).sum

/-- A single travel leg as built by `_build_segment` (the
`transfer_station` / `waiting_time_minutes` slots start as `None` and are
filled in by the transfer-connection builders). -/
structure Segment where
  route : Int
  departure_station : Int
  arrival_station : Int
  departure_time : Nat
  arrival_time : Nat
  travel_time_minutes : Int
  distance_km : Nat
  stops_count : Int
  route_points : List RP
  transfer_station : Option Int
  waiting_time_minutes : Option Int
deriving DecidableEq, Repr

/-- A direct connection as built by `_build_single_connection`
(the `next_journeys` enrichment is external presentation data, see the
file header). -/
structure Connection where
  route : Int
  departure_station : Int
  arrival_station : Int
  departure_time : Nat
  arrival_time : Nat
  travel_time_minutes : Int
  distance_km : Nat
  stops_count : Int
  route_points : List RP
deriving DecidableEq, Repr

/-- `ConnectionSearchView._build_single_connection` (the
`_is_valid_route_direction` test is inlined on the two matched stops). -/
def build_single_connection (db : DB) (rid f t : Int) : Option Connection :=
  match findPoint db rid f, findPoint db rid t with
  | some d, some a =>
    if d.sequence < a.sequence then
      some { route := rid
             departure_station := f
             arrival_station := t
             departure_time := d.dep
             arrival_time := a.arr
             travel_time_minutes := calculate_travel_time d.dep a.arr
             distance_km := calculate_distance (get_route_points db rid d.sequence a.sequence) d.sequence
             stops_count := ((get_route_points db rid d.sequence a.sequence).length : Int) - 2
             route_points := get_route_points db rid d.sequence a.sequence }
    else none
  | _, _ => none

/-- `ConnectionSearchView._build_segment`. -/
def build_segment (db : DB) (rid f t : Int) : Option Segment :=
  match findPoint db rid f, findPoint db rid t with
  | some d, some a =>
    if d.sequence < a.sequence then
      some { route := rid
             departure_station := f
             arrival_station := t
             departure_time := d.dep
             arrival_time := a.arr
             travel_time_minutes := calculate_travel_time d.dep a.arr
             distance_km := calculate_distance (get_route_points db rid d.sequence a.sequence) d.sequence
             stops_count := ((get_route_points db rid d.sequence a.sequence).length : Int) - 2
             route_points := get_route_points db rid d.sequence a.sequence
             transfer_station := none
             waiting_time_minutes := none }
    else none
  | _, _ => none

/-- `ConnectionSearchView._find_common_routes`: the route ids stopping at
both stations (a Python set; modelled as a deduplicated list). -/
def find_common_routes (db : DB) (f t : Int) : List Int :=
  (((db.points.filter (fun p => p.station == f)).map (fun p => p.route)).filter
    (fun r => ((db.points.filter (fun p => p.station == t)).map (fun p => p.route)).contains r)).dedup

/-- `ConnectionSearchView._build_connections`. -/
def build_connections (db : DB) (rids : List Int) (f t : Int) : List Connection :=
  rids.filterMap (fun rid => build_single_connection db rid f t)

/-- The direct phase of `ConnectionSearchView.get` (lines 93–102):
common routes materialized through `_build_single_connection`. -/
def find_direct (db : DB) (f t : Int) : List Connection :=
  build_connections db (find_common_routes db f t) f t

/-- `RoutePoint.objects.filter(station_id=sid).values_list('route_id').distinct()`. -/
def routes_at (db : DB) (sid : Int) : List Int :=
  ((db.points.filter (fun p => p.station == sid)).map (fun p => p.route)).dedup

/-- Same, with an `.exclude(route_id__in=excl)` clause. -/
def routes_at_excluding (db : DB) (sid : Int) (excl : List Int) : List Int :=
  ((db.points.filter (fun p => p.station == sid && !(excl.contains p.route))).map
    (fun p => p.route)).dedup

/-- An itinerary with transfers as built by
`_build_connection_with_transfer` / `_build_connection_with_two_transfers`. -/
structure TransferConnection where
  segments : List Segment
  total_travel_time_minutes : Int
  total_waiting_time_minutes : Int
  total_distance_km : Nat
  total_stops_count : Int
  transfers_count : Nat
  departure_station : Int
  arrival_station : Int
  departure_time : Nat
  arrival_time : Nat
deriving DecidableEq, Repr

/-- `ConnectionSearchView._build_connection_with_transfer`. -/
def build_connection_with_transfer (db : DB) (r1 r2 f t1 t : Int) :
    Option TransferConnection :=
  match build_segment db r1 f t1 with
  | none => none
  | some s1 =>
    match build_segment db r2 t1 t with
    | none => none
    | some s2 =>
      let w0 := calculate_travel_time s1.arrival_time s2.departure_time
      let w := if w0 < 0 then w0 + 24 * 60 else w0
      let s2' := { s2 with transfer_station := some t1, waiting_time_minutes := some w }
      some { segments := [s1, s2']
             total_travel_time_minutes := s1.travel_time_minutes + s2'.travel_time_minutes
             total_waiting_time_minutes := w
             total_distance_km := s1.distance_km + s2'.distance_km
             total_stops_count := s1.stops_count + s2'.stops_count
             transfers_count := 1
             departure_station := f
             arrival_station := t
             departure_time := s1.departure_time
             arrival_time := s2'.arrival_time }

/-- `ConnectionSearchView._build_connection_with_two_transfers`. -/
def build_connection_with_two_transfers (db : DB) (r1 r2 r3 f t1 t2 t : Int) :
    Option TransferConnection :=
  match build_segment db r1 f t1 with
  | none => none
  | some s1 =>
    match build_segment db r2 t1 t2 with
    | none => none
    | some s2 =>
      match build_segment db r3 t2 t with
      | none => none
      | some s3 =>
        let w1x := calculate_travel_time s1.arrival_time s2.departure_time
        let w1 := if w1x < 0 then w1x + 24 * 60 else w1x
        let w2x := calculate_travel_time s2.arrival_time s3.departure_time
        let w2 := if w2x < 0 then w2x + 24 * 60 else w2x
        let s2' := { s2 with transfer_station := some t1, waiting_time_minutes := some w1 }
        let s3' := { s3 with transfer_station := some t2, waiting_time_minutes := some w2 }
        some { segments := [s1, s2', s3']
               total_travel_time_minutes :=
                 s1.travel_time_minutes + s2'.travel_time_minutes + s3'.travel_time_minutes
               total_waiting_time_minutes := w1 + w2
               total_distance_km := s1.distance_km + s2'.distance_km + s3'.distance_km
               total_stops_count := s1.stops_count + s2'.stops_count + s3'.stops_count
               transfers_count := 2
               departure_station := f
               arrival_station := t
               departure_time := s1.departure_time
               arrival_time := s3'.arrival_time }

/-- `ConnectionSearchView._find_connections_via_one_transfer`. -/
def find_connections_via_one_transfer (db : DB) (f t : Int) : List TransferConnection :=
  (routes_at db f).flatMap (fun r1 =>
    let pts1 := routePoints db r1
    match pts1.find? (fun p => p.station == f) with
    | none => []
    | some sp =>
      (pts1.filter (fun p => sp.sequence < p.sequence)).flatMap (fun ip =>
        let t1 := ip.station
        (routes_at db t).filterMap (fun r2 =>
          if r2 == r1 then none
          else
            let pts2 := routePoints db r2
            match pts2.find? (fun p => p.station == t1),
                  pts2.find? (fun p => p.station == t) with
            | some iop, some ep =>
              if iop.sequence < ep.sequence then
                build_connection_with_transfer db r1 r2 f t1 t
              else none
            | _, _ => none)))

/-- `ConnectionSearchView._find_connections_via_two_transfers`. -/
def find_connections_via_two_transfers (db : DB) (f t : Int) : List TransferConnection :=
  (routes_at db f).flatMap (fun r1 =>
    let pts1 := routePoints db r1
    match pts1.find? (fun p => p.station == f) with
    | none => []
    | some sp =>
      (pts1.filter (fun p => sp.sequence < p.sequence)).flatMap (fun ip1 =>
        let t1 := ip1.station
        (routes_at_excluding db t1 [r1]).flatMap (fun r2 =>
          let pts2 := routePoints db r2
          match pts2.find? (fun p => p.station == t1) with
          | none => []
          | some tp1 =>
            (pts2.filter (fun p => tp1.sequence < p.sequence)).flatMap (fun ip2 =>
              let t2 := ip2.station
              if t2 == t then []
              else
                (routes_at_excluding db t2 [r1, r2]).filterMap (fun r3 =>
                  let pts3 := routePoints db r3
                  match pts3.find? (fun p => p.station == t2),
                        pts3.find? (fun p => p.station == t) with
                  | some tp2, some ep =>
                    if tp2.sequence < ep.sequence then
                      build_connection_with_two_transfers db r1 r2 r3 f t1 t2 t
                    else none
                  | _, _ => none)))))

/-- `ConnectionSearchView._find_connections_with_transfers` with the
hard-coded `max_transfers=2`: one-transfer results followed by
two-transfer results. -/
def find_connections_with_transfers (db : DB) (f t : Int) : List TransferConnection :=
  find_connections_via_one_transfer db f t ++ find_connections_via_two_transfers db f t

/-- Python's stable sort by `travel_time_minutes` (line 105). -/
def sortDirect (l : List Connection) : List Connection :=
  l.insertionSort (fun a b => a.travel_time_minutes ≤ b.travel_time_minutes)

/-- Python's stable sort by total travel + waiting time (lines 125–127). -/
def sortTransfers (l : List TransferConnection) : List TransferConnection :=
  l.insertionSort (fun a b =>
    a.total_travel_time_minutes + a.total_waiting_time_minutes ≤
      b.total_travel_time_minutes + b.total_waiting_time_minutes)

/-- The four `Response(...)` shapes of `ConnectionSearchView`, one
constructor per return site kind, carrying the fields of the literal
dict bodies. -/
inductive SearchResponse where
  | badRequest (error : String)
  | notFound (error : String)
  | found (direct_connections : List Connection)
      (connections_with_transfers : List TransferConnection)
      (count : Nat) (message : String)
  | noResults (count : Nat) (message : String)
deriving DecidableEq, Repr

/-- The top-level keys of each response's JSON body, read off the dict
literals in the source (lines 107–112, 129–134, 143–145/152–154,
165–167, 279–283). -/
def bodyKeys : SearchResponse → List String
  | .badRequest _ => ["error"]
  | .notFound _ => ["error"]
  | .found _ _ _ _ =>
      ["direct_connections", "connections_with_transfers", "count", "message"]
  | .noResults _ _ => ["connections", "count", "message"]

/-- The transfer phase of `ConnectionSearchView.get` (lines 114–136),
parameterized by the transfer finder so that the direct-phase
short-circuit (claim C1) is expressible as independence from it. -/
def transfersPhaseWith (tf : DB → Int → Int → List TransferConnection)
    (db : DB) (f t : Int) : SearchResponse :=
  let ts := tf db f t
  if ts.isEmpty then
    .noResults 0 "No connections found between these stations"
  else
    .found [] (sortTransfers ts) ts.length
      ("Found " ++ toString ts.length ++ " connection(s) with transfers")

/-- `ConnectionSearchView.get` after parameter/station validation
(lines 92–136), parameterized by the transfer finder. -/
def getWith (tf : DB → Int → Int → List TransferConnection)
    (db : DB) (f t : Int) : SearchResponse :=
  let common := find_common_routes db f t
  if common.isEmpty then transfersPhaseWith tf db f t
  else
    let conns := build_connections db common f t
    if conns.isEmpty then transfersPhaseWith tf db f t
    else .found (sortDirect conns) [] conns.length "Direct connections found successfully"

/-- The search pipeline on validated station ids, with the real transfer
finder. -/
def searchCore (db : DB) (f t : Int) : SearchResponse :=
  getWith find_connections_with_transfers db f t

/-- The raw query parameters of a request (`request.query_params.get`
returns `None` for an absent parameter). -/
structure Request where
  from_station : Option String
  to_station : Option String
deriving DecidableEq, Repr

/-- Python truthiness test `not param` on an optional string: true for
an absent parameter and for the empty string. -/
def falsyParam : Option String → Bool
  | none => true
  | some s => s.isEmpty

/-- Digit run of a Python integer literal: decimal digits with single
underscores allowed between digits (the `sawDigit` flag records whether
the previous character was a digit). -/
def pyDigits : List Char → Nat → Bool → Option Nat
  | [], _, false => none
  | [], acc, true => some acc
  | c :: cs, acc, sawDigit =>
    if c.isDigit then pyDigits cs (10 * acc + (c.toNat - 48)) true
    else if c == '_' && sawDigit then pyDigits cs acc false
    else none

/-- Python's `int(s)` on a string: optional surrounding whitespace, an
optional sign, then a digit run; `none` models a raised `ValueError`. -/
def pyToInt (s : String) : Option Int :=
  let cs := ((s.toList.dropWhile Char.isWhitespace).reverse.dropWhile Char.isWhitespace).reverse
  match cs with
  | '+' :: rest => (pyDigits rest 0 false).map (fun n => (n : Int))
  | '-' :: rest => (pyDigits rest 0 false).map (fun n => -(n : Int))
  | rest => (pyDigits rest 0 false).map (fun n => (n : Int))

/-- `ConnectionSearchView.get` (lines 79–136): `_validate_parameters`,
`_get_stations`, then the search pipeline; parameterized by the transfer
finder. -/
def searchWith (tf : DB → Int → Int → List TransferConnection)
    (db : DB) (req : Request) : SearchResponse :=
  if falsyParam req.from_station || falsyParam req.to_station then
    .badRequest "Both from_station and to_station parameters are required"
  else
    match pyToInt (req.from_station.getD ""), pyToInt (req.to_station.getD "") with
    | some f, some t =>
      if db.stations.contains f && db.stations.contains t then getWith tf db f t
      else .notFound "One or both stations not found"
    | _, _ => .badRequest "Station IDs must be integers"

/-- The full endpoint with the real transfer finder. -/
def search (db : DB) (req : Request) : SearchResponse :=
  searchWith find_connections_with_transfers db req

/-- `true` exactly on the 400/404 responses. -/
def isErr : SearchResponse → Bool
  | .badRequest _ => true
  | .notFound _ => true
  | _ => false

/-! ## Basic lemmas about the queryset model -/

theorem mem_sortPoints {p : RP} {l : List RP} : p ∈ sortPoints l ↔ p ∈ l :=
  (List.perm_insertionSort _ l).mem_iff

theorem findPoint_mem {db : DB} {r s : Int} {p : RP} (h : findPoint db r s = some p) :
    p ∈ db.points ∧ p.route = r ∧ p.station = s := by
  have hm : p ∈ routePoints db r := List.mem_of_find?_eq_some h
  have hs : p.station = s := by
    have := List.find?_some h
    simpa using this
  have : p ∈ db.points.filter (fun q => q.route == r) := mem_sortPoints.mp hm
  rw [List.mem_filter] at this
  exact ⟨this.1, by simpa using this.2, hs⟩

theorem routes_at_excluding_spec {db : DB} {sid r : Int} {excl : List Int}
    (h : r ∈ routes_at_excluding db sid excl) : r ∉ excl := by
  unfold routes_at_excluding at h
  rw [List.mem_dedup, List.mem_map] at h
  obtain ⟨p, hp, hr⟩ := h
  rw [List.mem_filter] at hp
  have := hp.2
  subst hr
  simp only [Bool.and_eq_true, Bool.not_eq_true'] at this
  intro hmem
  have hfalse := this.2
  have hc : excl.contains p.route = true := List.elem_iff.mpr hmem
  rw [hfalse] at hc
  exact Bool.false_ne_true hc

theorem mem_find_common_routes {db : DB} {f t r : Int} :
    r ∈ find_common_routes db f t ↔
      (∃ p ∈ db.points, p.station = f ∧ p.route = r) ∧
      (∃ q ∈ db.points, q.station = t ∧ q.route = r) := by
  unfold find_common_routes
  rw [List.mem_dedup, List.mem_filter]
  constructor
  · rintro ⟨h1, h2⟩
    rw [List.mem_map] at h1
    obtain ⟨p, hp, hr⟩ := h1
    rw [List.mem_filter] at hp
    rw [List.elem_iff, List.mem_map] at h2
    obtain ⟨q, hq, hqr⟩ := h2
    rw [List.mem_filter] at hq
    exact ⟨⟨p, hp.1, by simpa using hp.2, hr⟩, ⟨q, hq.1, by simpa using hq.2, hqr⟩⟩
  · rintro ⟨⟨p, hp, hpf, hpr⟩, ⟨q, hq, hqt, hqr⟩⟩
    constructor
    · rw [List.mem_map]
      exact ⟨p, List.mem_filter.mpr ⟨hp, by simp [hpf]⟩, hpr⟩
    · rw [List.elem_iff, List.mem_map]
      exact ⟨q, List.mem_filter.mpr ⟨hq, by simp [hqt]⟩, hqr⟩

/-! ## Inversion lemmas for the builders -/

theorem build_single_connection_inv {db : DB} {rid f t : Int} {c : Connection}
    (h : build_single_connection db rid f t = some c) :
    ∃ d a, findPoint db rid f = some d ∧ findPoint db rid t = some a ∧
      d.sequence < a.sequence ∧
      c = { route := rid
            departure_station := f
            arrival_station := t
            departure_time := d.dep
            arrival_time := a.arr
            travel_time_minutes := calculate_travel_time d.dep a.arr
            distance_km := calculate_distance (get_route_points db rid d.sequence a.sequence) d.sequence
            stops_count := ((get_route_points db rid d.sequence a.sequence).length : Int) - 2
            route_points := get_route_points db rid d.sequence a.sequence } := by
  unfold build_single_connection at h
  cases hd : findPoint db rid f with
  | none => rw [hd] at h; exact absurd h (by simp)
  | some d =>
    cases ha : findPoint db rid t with
    | none => rw [hd, ha] at h; exact absurd h (by simp)
    | some a =>
      rw [hd, ha] at h
      dsimp only at h
      by_cases hlt : d.sequence < a.sequence
      · rw [if_pos hlt] at h
        exact ⟨d, a, rfl, rfl, hlt, (Option.some.inj h).symm⟩
      · rw [if_neg hlt] at h
        exact absurd h (by simp)

theorem build_segment_inv {db : DB} {rid f t : Int} {s : Segment}
    (h : build_segment db rid f t = some s) :
    ∃ d a, findPoint db rid f = some d ∧ findPoint db rid t = some a ∧
      d.sequence < a.sequence ∧
      s = { route := rid
            departure_station := f
            arrival_station := t
            departure_time := d.dep
            arrival_time := a.arr
            travel_time_minutes := calculate_travel_time d.dep a.arr
            distance_km := calculate_distance (get_route_points db rid d.sequence a.sequence) d.sequence
            stops_count := ((get_route_points db rid d.sequence a.sequence).length : Int) - 2
            route_points := get_route_points db rid d.sequence a.sequence
            transfer_station := none
            waiting_time_minutes := none } := by
  unfold build_segment at h
  cases hd : findPoint db rid f with
  | none => rw [hd] at h; exact absurd h (by simp)
  | some d =>
    cases ha : findPoint db rid t with
    | none => rw [hd, ha] at h; exact absurd h (by simp)
    | some a =>
      rw [hd, ha] at h
      dsimp only at h
      by_cases hlt : d.sequence < a.sequence
      · rw [if_pos hlt] at h
        exact ⟨d, a, rfl, rfl, hlt, (Option.some.inj h).symm⟩
      · rw [if_neg hlt] at h
        exact absurd h (by simp)

theorem mem_build_connections {db : DB} {rids : List Int} {f t : Int} {c : Connection} :
    c ∈ build_connections db rids f t ↔
      ∃ r ∈ rids, build_single_connection db r f t = some c := by
  unfold build_connections
  exact List.mem_filterMap

theorem build_connection_with_transfer_inv {db : DB} {r1 r2 f t1 t : Int}
    {c : TransferConnection}
    (h : build_connection_with_transfer db r1 r2 f t1 t = some c) :
    ∃ s1 s2 w,
      build_segment db r1 f t1 = some s1 ∧
      build_segment db r2 t1 t = some s2 ∧
      w = (if calculate_travel_time s1.arrival_time s2.departure_time < 0 then
             calculate_travel_time s1.arrival_time s2.departure_time + 24 * 60
           else calculate_travel_time s1.arrival_time s2.departure_time) ∧
      c = { segments := [s1, { s2 with transfer_station := some t1, waiting_time_minutes := some w }]
            total_travel_time_minutes := s1.travel_time_minutes + s2.travel_time_minutes
            total_waiting_time_minutes := w
            total_distance_km := s1.distance_km + s2.distance_km
            total_stops_count := s1.stops_count + s2.stops_count
            transfers_count := 1
            departure_station := f
            arrival_station := t
            departure_time := s1.departure_time
            arrival_time := s2.arrival_time } := by
  unfold build_connection_with_transfer at h
  cases h1 : build_segment db r1 f t1 with
  | none => rw [h1] at h; exact absurd h (by simp)
  | some s1 =>
    rw [h1] at h
    cases h2 : build_segment db r2 t1 t with
    | none => rw [h2] at h; exact absurd h (by simp)
    | some s2 =>
      rw [h2] at h
      dsimp only at h
      exact ⟨s1, s2, _, rfl, rfl, rfl, (Option.some.inj h).symm⟩

theorem build_connection_with_two_transfers_inv {db : DB} {r1 r2 r3 f t1 t2 t : Int}
    {c : TransferConnection}
    (h : build_connection_with_two_transfers db r1 r2 r3 f t1 t2 t = some c) :
    ∃ s1 s2 s3 w1 w2,
      build_segment db r1 f t1 = some s1 ∧
      build_segment db r2 t1 t2 = some s2 ∧
      build_segment db r3 t2 t = some s3 ∧
      w1 = (if calculate_travel_time s1.arrival_time s2.departure_time < 0 then
              calculate_travel_time s1.arrival_time s2.departure_time + 24 * 60
            else calculate_travel_time s1.arrival_time s2.departure_time) ∧
      w2 = (if calculate_travel_time s2.arrival_time s3.departure_time < 0 then
              calculate_travel_time s2.arrival_time s3.departure_time + 24 * 60
            else calculate_travel_time s2.arrival_time s3.departure_time) ∧
      c = { segments := [s1,
              { s2 with transfer_station := some t1, waiting_time_minutes := some w1 },
              { s3 with transfer_station := some t2, waiting_time_minutes := some w2 }]
            total_travel_time_minutes :=
              s1.travel_time_minutes + s2.travel_time_minutes + s3.travel_time_minutes
            total_waiting_time_minutes := w1 + w2
            total_distance_km := s1.distance_km + s2.distance_km + s3.distance_km
            total_stops_count := s1.stops_count + s2.stops_count + s3.stops_count
            transfers_count := 2
            departure_station := f
            arrival_station := t
            departure_time := s1.departure_time
            arrival_time := s3.arrival_time } := by
  unfold build_connection_with_two_transfers at h
  cases h1 : build_segment db r1 f t1 with
  | none => rw [h1] at h; exact absurd h (by simp)
  | some s1 =>
    rw [h1] at h
    cases h2 : build_segment db r2 t1 t2 with
    | none => rw [h2] at h; exact absurd h (by simp)
    | some s2 =>
      rw [h2] at h
      cases h3 : build_segment db r3 t2 t with
      | none => rw [h3] at h; exact absurd h (by simp)
      | some s3 =>
        rw [h3] at h
        dsimp only at h
        exact ⟨s1, s2, s3, _, _, rfl, rfl, rfl, rfl, rfl, (Option.some.inj h).symm⟩

theorem mem_one_transfer_inv {db : DB} {f t : Int} {c : TransferConnection}
    (h : c ∈ find_connections_via_one_transfer db f t) :
    ∃ r1 t1 r2, r2 ≠ r1 ∧
      build_connection_with_transfer db r1 r2 f t1 t = some c := by
  unfold find_connections_via_one_transfer at h
  rw [List.mem_flatMap] at h
  obtain ⟨r1, hr1, h⟩ := h
  dsimp only at h
  cases hsp : (routePoints db r1).find? (fun p => p.station == f) with
  | none => rw [hsp] at h; exact absurd h (by simp)
  | some sp =>
    rw [hsp] at h
    rw [List.mem_flatMap] at h
    obtain ⟨ip, hip, h⟩ := h
    rw [List.mem_filterMap] at h
    obtain ⟨r2, hr2, h⟩ := h
    by_cases he : (r2 == r1) = true
    · rw [if_pos he] at h; exact absurd h (by simp)
    · rw [if_neg he] at h
      cases hiop : (routePoints db r2).find? (fun p => p.station == ip.station) with
      | none => rw [hiop] at h; exact absurd h (by simp)
      | some iop =>
        cases hep : (routePoints db r2).find? (fun p => p.station == t) with
        | none => rw [hiop, hep] at h; exact absurd h (by simp)
        | some ep =>
          rw [hiop, hep] at h
          dsimp only at h
          by_cases hseq : iop.sequence < ep.sequence
          · rw [if_pos hseq] at h
            exact ⟨r1, ip.station, r2, by simpa using he, h⟩
          · rw [if_neg hseq] at h; exact absurd h (by simp)

theorem mem_two_transfer_inv {db : DB} {f t : Int} {c : TransferConnection}
    (h : c ∈ find_connections_via_two_transfers db f t) :
    ∃ r1 t1 r2 t2 r3, r2 ≠ r1 ∧ t2 ≠ t ∧ r3 ≠ r1 ∧ r3 ≠ r2 ∧
      build_connection_with_two_transfers db r1 r2 r3 f t1 t2 t = some c := by
  unfold find_connections_via_two_transfers at h
  rw [List.mem_flatMap] at h
  obtain ⟨r1, hr1, h⟩ := h
  dsimp only at h
  cases hsp : (routePoints db r1).find? (fun p => p.station == f) with
  | none => rw [hsp] at h; exact absurd h (by simp)
  | some sp =>
    rw [hsp] at h
    rw [List.mem_flatMap] at h
    obtain ⟨ip1, hip1, h⟩ := h
    rw [List.mem_flatMap] at h
    obtain ⟨r2, hr2, h⟩ := h
    have hr2ne : r2 ≠ r1 := by
      have := routes_at_excluding_spec hr2
      simpa using this
    cases htp1 : (routePoints db r2).find? (fun p => p.station == ip1.station) with
    | none => rw [htp1] at h; exact absurd h (by simp)
    | some tp1 =>
      rw [htp1] at h
      rw [List.mem_flatMap] at h
      obtain ⟨ip2, hip2, h⟩ := h
      by_cases ht2 : (ip2.station == t) = true
      · rw [if_pos ht2] at h; exact absurd h (by simp)
      · rw [if_neg ht2] at h
        rw [List.mem_filterMap] at h
        obtain ⟨r3, hr3, h⟩ := h
        have hr3ne : r3 ≠ r1 ∧ r3 ≠ r2 := by
          have := routes_at_excluding_spec hr3
          simpa using this
        cases htp2 : (routePoints db r3).find? (fun p => p.station == ip2.station) with
        | none => rw [htp2] at h; exact absurd h (by simp)
        | some tp2 =>
          cases hep : (routePoints db r3).find? (fun p => p.station == t) with
          | none => rw [htp2, hep] at h; exact absurd h (by simp)
          | some ep =>
            rw [htp2, hep] at h
            dsimp only at h
            by_cases hseq : tp2.sequence < ep.sequence
            · rw [if_pos hseq] at h
              exact ⟨r1, ip1.station, r2, ip2.station, r3, hr2ne,
                by simpa using ht2, hr3ne.1, hr3ne.2, h⟩
            · rw [if_neg hseq] at h; exact absurd h (by simp)

/-! ## Sortedness of the response lists -/

theorem sortDirect_pairwise (l : List Connection) :
    (sortDirect l).Pairwise (fun a b => a.travel_time_minutes ≤ b.travel_time_minutes) := by
  haveI h1 : IsTotal Connection (fun a b => a.travel_time_minutes ≤ b.travel_time_minutes) :=
    ⟨fun a b => le_total _ _⟩
  haveI h2 : IsTrans Connection (fun a b => a.travel_time_minutes ≤ b.travel_time_minutes) :=
    ⟨fun _ _ _ hab hbc => le_trans hab hbc⟩
  exact List.sorted_insertionSort _ l

theorem sortTransfers_pairwise (l : List TransferConnection) :
    (sortTransfers l).Pairwise (fun a b =>
      a.total_travel_time_minutes + a.total_waiting_time_minutes ≤
        b.total_travel_time_minutes + b.total_waiting_time_minutes) := by
  haveI h1 : IsTotal TransferConnection (fun a b =>
      a.total_travel_time_minutes + a.total_waiting_time_minutes ≤
        b.total_travel_time_minutes + b.total_waiting_time_minutes) :=
    ⟨fun a b => le_total _ _⟩
  haveI h2 : IsTrans TransferConnection (fun a b =>
      a.total_travel_time_minutes + a.total_waiting_time_minutes ≤
        b.total_travel_time_minutes + b.total_waiting_time_minutes) :=
    ⟨fun _ _ _ hab hbc => le_trans hab hbc⟩
  exact List.sorted_insertionSort _ l

theorem calculate_travel_time_nonneg {dep : Nat} (arr : Nat) (h : dep < 1440) :
    0 ≤ calculate_travel_time dep arr := by
  unfold calculate_travel_time
  split <;> omega

/-! ## Concrete schedule stores for witnesses and counterexamples -/

/-- Route 100 serves stations 1 → 2 (a direct connection exists). -/
def db1 : DB :=
  { stations := [1, 2],
    points := [
      { route := 100, station := 1, sequence := 1, arr := 480, dep := 485, dist := none },
      { route := 100, station := 2, sequence := 2, arr := 540, dep := 545, dist := some 50 } ] }

/-- Route 1 goes 1 → 2, route 2 goes 2 → 1, route 3 goes 1 → 3: the
two-transfer search from 1 to 3 can loop back through the origin. -/
def db2 : DB :=
  { stations := [1, 2, 3],
    points := [
      { route := 1, station := 1, sequence := 1, arr := 0, dep := 0, dist := none },
      { route := 1, station := 2, sequence := 2, arr := 0, dep := 0, dist := none },
      { route := 2, station := 2, sequence := 1, arr := 0, dep := 0, dist := none },
      { route := 2, station := 1, sequence := 2, arr := 0, dep := 0, dist := none },
      { route := 3, station := 1, sequence := 1, arr := 0, dep := 0, dist := none },
      { route := 3, station := 3, sequence := 2, arr := 0, dep := 0, dist := none } ] }

/-- Route 1 goes 1 → 2 and route 2 goes 2 → 1: a one-transfer loop
itinerary from station 1 back to station 1 exists. -/
def db3 : DB :=
  { stations := [1, 2],
    points := [
      { route := 1, station := 1, sequence := 1, arr := 0, dep := 10, dist := none },
      { route := 1, station := 2, sequence := 2, arr := 60, dep := 70, dist := some 5 },
      { route := 2, station := 2, sequence := 1, arr := 80, dep := 90, dist := none },
      { route := 2, station := 1, sequence := 2, arr := 150, dep := 160, dist := some 5 } ] }

/-- Two stations, no routes at all: every valid search is empty. -/
def dbNoConn : DB :=
  { stations := [1, 2], points := [] }

/-! ## The claims -/

/-- C1: for every search where the direct phase yields at least one valid
direct segment, the transfer-search phases are never invoked (the
response is the same whatever transfer finder is plugged in), and the
response has an empty `connections_with_transfers` list with the direct
list sorted by travel time ascending. -/
theorem c1_direct_short_circuit (db : DB) (f t : Int)
    (h : find_direct db f t ≠ []) :
    (∀ tf, getWith tf db f t = searchCore db f t) ∧
    searchCore db f t =
      .found (sortDirect (find_direct db f t)) [] (find_direct db f t).length
        "Direct connections found successfully" ∧
    (sortDirect (find_direct db f t)).Pairwise
      (fun a b => a.travel_time_minutes ≤ b.travel_time_minutes) := by
  have hcommon : (find_common_routes db f t).isEmpty = false := by
    cases hc : find_common_routes db f t with
    | nil =>
      exfalso
      apply h
      unfold find_direct build_connections
      rw [hc]
      rfl
    | cons a l => rfl
  have hconns : (build_connections db (find_common_routes db f t) f t).isEmpty = false := by
    cases hc : build_connections db (find_common_routes db f t) f t with
    | nil => exact absurd hc h
    | cons a l => rfl
  have hget : ∀ tf, getWith tf db f t =
      .found (sortDirect (find_direct db f t)) [] (find_direct db f t).length
        "Direct connections found successfully" := by
    intro tf
    simp only [getWith, hcommon, hconns, Bool.false_eq_true, if_false]
    rfl
  exact ⟨fun tf => (hget tf).trans (hget _).symm, hget _, sortDirect_pairwise _⟩

/-- Witness for C1: on `db1`, the direct phase from 1 to 2 is non-empty,
the transfer finder is irrelevant, and the sorted direct response is
returned. -/
theorem c1_witness :
    getWith (fun _ _ _ => []) db1 1 2 = searchCore db1 1 2 ∧
    searchCore db1 1 2 =
      .found (sortDirect (find_direct db1 1 2)) [] (find_direct db1 1 2).length
        "Direct connections found successfully" ∧
    (sortDirect (find_direct db1 1 2)).Pairwise
      (fun a b => a.travel_time_minutes ≤ b.travel_time_minutes) := by
  have h := c1_direct_short_circuit db1 1 2 (by decide)
  exact ⟨h.1 _, h.2.1, h.2.2⟩

/-- C3 counterexample: on `db3`, station 1 exists and `search(1, 1)` is
NOT empty — the transfer phase emits the loop itinerary 1 → 2 (route 1)
then 2 → 1 (route 2), so the endpoint answers with a non-empty
`connections_with_transfers` list. -/
theorem c3_counterexample :
    ∃ d ts n m, search db3 { from_station := some "1", to_station := some "1" } =
      .found d ts n m ∧ ts ≠ [] :=
  ⟨_, _, _, _, rfl, by decide⟩

/-- C3 (amended): for every station X, `search(X, X)` yields no *direct*
connection — no segment satisfies `departure.sequence < arrival.sequence`
for identical stations, so every candidate route is discarded and the
pipeline always falls through to the transfer phase (which may still
return loop itineraries, as the counterexample shows). -/
theorem c3_amended (db : DB) (X : Int) :
    (∀ r, build_single_connection db r X X = none) ∧
    find_direct db X X = [] ∧
    searchCore db X X = transfersPhaseWith find_connections_with_transfers db X X := by
  have hb : ∀ r, build_single_connection db r X X = none := by
    intro r
    unfold build_single_connection
    cases hd : findPoint db r X with
    | none => rfl
    | some d => dsimp only; rw [if_neg (lt_irrefl d.sequence)]
  have hfd : find_direct db X X = [] := by
    unfold find_direct build_connections
    rw [List.filterMap_eq_nil_iff]
    intro r _
    exact hb r
  refine ⟨hb, hfd, ?_⟩
  unfold searchCore getWith
  by_cases hc : (find_common_routes db X X).isEmpty
  · rw [if_pos hc]
  · rw [if_neg hc]
    have h0 : build_connections db (find_common_routes db X X) X X = [] := hfd
    simp only [h0, List.isEmpty_nil, if_true]

/-- C4: `_build_segment` returns `None` exactly when the route has no
stop at the departure station, no stop at the arrival station, or the
(first) stop at the departure station does not precede the (first) stop
at the arrival station; consequently a route with stop A at sequence 2
and stop B at sequence 5 contributes a direct connection for (A, B) and
none for (B, A). -/
theorem c4_segment_null_conditions (db : DB) (rid f t A B : Int) :
    (build_segment db rid f t = none ↔
      findPoint db rid f = none ∨ findPoint db rid t = none ∨
        ∃ d a, findPoint db rid f = some d ∧ findPoint db rid t = some a ∧
          a.sequence ≤ d.sequence) ∧
    ((∃ pa, findPoint db rid A = some pa ∧ pa.sequence = 2) →
     (∃ pb, findPoint db rid B = some pb ∧ pb.sequence = 5) →
     (∃ c ∈ find_direct db A B, c.route = rid) ∧
       ∀ c ∈ find_direct db B A, c.route ≠ rid) := by
  constructor
  · constructor
    · intro hn
      cases hd : findPoint db rid f with
      | none => exact Or.inl rfl
      | some d =>
        cases ha : findPoint db rid t with
        | none => exact Or.inr (Or.inl rfl)
        | some a =>
          refine Or.inr (Or.inr ⟨d, a, rfl, rfl, ?_⟩)
          by_contra hle
          push_neg at hle
          unfold build_segment at hn
          rw [hd, ha] at hn
          dsimp only at hn
          rw [if_pos hle] at hn
          exact absurd hn (by simp)
    · intro hor
      rcases hor with hf | ht | ⟨d, a, hd, ha, hle⟩
      · unfold build_segment
        rw [hf]
      · unfold build_segment
        rw [ht]
        cases findPoint db rid f <;> rfl
      · unfold build_segment
        rw [hd, ha]
        dsimp only
        rw [if_neg (not_lt.mpr hle)]
  · rintro ⟨pa, hpa, hpa2⟩ ⟨pb, hpb, hpb5⟩
    have hA := findPoint_mem hpa
    have hB := findPoint_mem hpb
    have hlt : pa.sequence < pb.sequence := by
      rw [hpa2, hpb5]
      decide
    constructor
    · have hcomAB : rid ∈ find_common_routes db A B :=
        mem_find_common_routes.mpr
          ⟨⟨pa, hA.1, hA.2.2, hA.2.1⟩, ⟨pb, hB.1, hB.2.2, hB.2.1⟩⟩
      have hsome : ∃ c, build_single_connection db rid A B = some c := by
        unfold build_single_connection
        rw [hpa, hpb]
        dsimp only
        rw [if_pos hlt]
        exact ⟨_, rfl⟩
      obtain ⟨c, hsomec⟩ := hsome
      have hroute : c.route = rid := by
        obtain ⟨d, a, _, _, _, hc⟩ := build_single_connection_inv hsomec
        rw [hc]
      exact ⟨c, mem_build_connections.mpr ⟨rid, hcomAB, hsomec⟩, hroute⟩
    · intro c hc hcr
      obtain ⟨r, hrmem, hsomec⟩ := mem_build_connections.mp hc
      obtain ⟨d, a, hd, ha, hdlt, hcEq⟩ := build_single_connection_inv hsomec
      have hr : r = rid := by
        rw [hcEq] at hcr
        exact hcr
      subst hr
      rw [hpb] at hd
      rw [hpa] at ha
      have hdpb : pb = d := Option.some.inj hd
      have hapa : pa = a := Option.some.inj ha
      rw [← hdpb, ← hapa, hpa2, hpb5] at hdlt
      exact absurd hdlt (by decide)

/-- Witness for C4: on `db1` (stops at sequences 1 and 2 — sequences 2
and 5 are modelled by a fresh store below), instantiated on a route with
stop A at sequence 2 and stop B at sequence 5. -/
def db4 : DB :=
  { stations := [10, 20],
    points := [
      { route := 7, station := 10, sequence := 2, arr := 100, dep := 105, dist := none },
      { route := 7, station := 20, sequence := 5, arr := 200, dep := 205, dist := some 30 } ] }

theorem c4_witness :
    (∃ c ∈ find_direct db4 10 20, c.route = 7) ∧
      ∀ c ∈ find_direct db4 20 10, c.route ≠ 7 :=
  (c4_segment_null_conditions db4 7 0 0 10 20).2
    ⟨{ route := 7, station := 10, sequence := 2, arr := 100, dep := 105, dist := none },
      by decide, rfl⟩
    ⟨{ route := 7, station := 20, sequence := 5, arr := 200, dep := 205, dist := some 30 },
      by decide, rfl⟩

/-- The itinerary that the two-transfer search on `db2` emits for the
request 1 → 3: it loops 1 → 2 (route 1), 2 → 1 (route 2), 1 → 3
(route 3) — its second transfer station is the origin itself. -/
def tc2 : TransferConnection :=
  { segments := [
      { route := 1, departure_station := 1, arrival_station := 2,
        departure_time := 0, arrival_time := 0, travel_time_minutes := 0,
        distance_km := 0, stops_count := 0,
        route_points := [
          { route := 1, station := 1, sequence := 1, arr := 0, dep := 0, dist := none },
          { route := 1, station := 2, sequence := 2, arr := 0, dep := 0, dist := none } ],
        transfer_station := none, waiting_time_minutes := none },
      { route := 2, departure_station := 2, arrival_station := 1,
        departure_time := 0, arrival_time := 0, travel_time_minutes := 0,
        distance_km := 0, stops_count := 0,
        route_points := [
          { route := 2, station := 2, sequence := 1, arr := 0, dep := 0, dist := none },
          { route := 2, station := 1, sequence := 2, arr := 0, dep := 0, dist := none } ],
        transfer_station := some 2, waiting_time_minutes := some 0 },
      { route := 3, departure_station := 1, arrival_station := 3,
        departure_time := 0, arrival_time := 0, travel_time_minutes := 0,
        distance_km := 0, stops_count := 0,
        route_points := [
          { route := 3, station := 1, sequence := 1, arr := 0, dep := 0, dist := none },
          { route := 3, station := 3, sequence := 2, arr := 0, dep := 0, dist := none } ],
        transfer_station := some 1, waiting_time_minutes := some 0 } ],
    total_travel_time_minutes := 0,
    total_waiting_time_minutes := 0,
    total_distance_km := 0,
    total_stops_count := 0,
    transfers_count := 2,
    departure_station := 1,
    arrival_station := 3,
    departure_time := 0,
    arrival_time := 0 }

/-- C2 counterexample: the two-transfer search on `db2` (request 1 → 3)
emits an itinerary whose third leg departs from the origin station 1 —
the second transfer station `t2` is NOT distinct from the stations
already used in the path, because the code only skips `t2` equal to the
destination. -/
theorem c2_counterexample :
    ∃ c ∈ find_connections_via_two_transfers db2 1 3,
      ∃ s ∈ c.segments.drop 2, s.departure_station = c.departure_station := by
  decide

/-- C2 (amended): in the two-transfer search, every emitted three-leg
itinerary has a second transfer station distinct from the destination,
and a third route distinct from both the first and the second route (the
exclusion of previously used *stations* does not hold — see the
counterexample). -/
theorem c2_amended (db : DB) (f t : Int) :
    ∀ c ∈ find_connections_via_two_transfers db f t,
      ∃ s1 s2 s3, c.segments = [s1, s2, s3] ∧
        s3.departure_station ≠ t ∧ s3.route ≠ s1.route ∧ s3.route ≠ s2.route := by
  intro c hc
  obtain ⟨r1, t1, r2, t2, r3, hr21, ht2, hr31, hr32, hbuild⟩ := mem_two_transfer_inv hc
  obtain ⟨s1, s2, s3, w1, w2, hs1, hs2, hs3, _, _, hcEq⟩ :=
    build_connection_with_two_transfers_inv hbuild
  obtain ⟨d1, a1, _, _, _, hs1Eq⟩ := build_segment_inv hs1
  obtain ⟨d2, a2, _, _, _, hs2Eq⟩ := build_segment_inv hs2
  obtain ⟨d3, a3, _, _, _, hs3Eq⟩ := build_segment_inv hs3
  refine ⟨s1, { s2 with transfer_station := some t1, waiting_time_minutes := some w1 },
    { s3 with transfer_station := some t2, waiting_time_minutes := some w2 },
    by rw [hcEq], ?_, ?_, ?_⟩
  · rw [hs3Eq]
    exact ht2
  · rw [hs3Eq, hs1Eq]
    exact hr31
  · rw [hs3Eq, hs2Eq]
    exact hr32

/-- Witness for C2 (amended) at the concrete store `db2`. -/
theorem c2_witness :
    tc2 ∈ find_connections_via_two_transfers db2 1 3 ∧
    ∃ s1 s2 s3, tc2.segments = [s1, s2, s3] ∧
      s3.departure_station ≠ 3 ∧ s3.route ≠ s1.route ∧ s3.route ≠ s2.route :=
  ⟨by decide, c2_amended db2 1 3 tc2 (by decide)⟩

/-- On a store with valid times-of-day, a built segment has non-negative
travel time, in-range endpoint times, and an unset waiting slot. -/
theorem build_segment_facts {db : DB} (hv : ValidTimes db) {r f t : Int} {s : Segment}
    (h : build_segment db r f t = some s) :
    0 ≤ s.travel_time_minutes ∧ s.departure_time < 1440 ∧ s.arrival_time < 1440 ∧
      s.waiting_time_minutes = none := by
  obtain ⟨d, a, hd, ha, _, hEq⟩ := build_segment_inv h
  have h1 := (hv d (findPoint_mem hd).1).1
  have h2 := (hv a (findPoint_mem ha).1).2
  subst hEq
  exact ⟨calculate_travel_time_nonneg _ h1, h1, h2, rfl⟩

/-- C5: with valid stored times, every segment travel time (direct or
transfer leg) and every itinerary waiting time is non-negative, and the
single time-difference function applies the +24 h wrap exactly when the
raw time-of-day difference is negative. -/
theorem c5_nonnegative_times (db : DB) (hv : ValidTimes db) (f t : Int) :
    (∀ dep arr : Nat, calculate_travel_time dep arr =
       if (arr : Int) - (dep : Int) < 0 then (arr : Int) - (dep : Int) + 24 * 60
       else (arr : Int) - (dep : Int)) ∧
    (∀ c ∈ find_direct db f t, 0 ≤ c.travel_time_minutes) ∧
    (∀ c ∈ find_connections_with_transfers db f t,
      0 ≤ c.total_waiting_time_minutes ∧
      ∀ s ∈ c.segments, 0 ≤ s.travel_time_minutes ∧
        ∀ w ∈ s.waiting_time_minutes, 0 ≤ w) := by
  refine ⟨?_, ?_, ?_⟩
  · intro dep arr
    unfold calculate_travel_time
    by_cases h : arr < dep
    · rw [if_pos h, if_pos (by omega)]
      omega
    · rw [if_neg h, if_neg (by omega)]
  · intro c hc
    obtain ⟨r, _, hsome⟩ := mem_build_connections.mp hc
    obtain ⟨d, a, hd, ha, _, hEq⟩ := build_single_connection_inv hsome
    have h1 := (hv d (findPoint_mem hd).1).1
    rw [hEq]
    exact calculate_travel_time_nonneg _ h1
  · intro c hc
    unfold find_connections_with_transfers at hc
    rw [List.mem_append] at hc
    rcases hc with hc | hc
    · obtain ⟨r1, t1, r2, _, hb⟩ := mem_one_transfer_inv hc
      obtain ⟨s1, s2, w, hs1, hs2, hw, hcEq⟩ := build_connection_with_transfer_inv hb
      have H1 := build_segment_facts hv hs1
      have H2 := build_segment_facts hv hs2
      have hw0 : 0 ≤ calculate_travel_time s1.arrival_time s2.departure_time :=
        calculate_travel_time_nonneg _ H1.2.2.1
      have hwnn : 0 ≤ w := by
        rw [hw, if_neg (not_lt.mpr hw0)]
        exact hw0
      subst hcEq
      refine ⟨hwnn, ?_⟩
      intro s hs
      have hs' : s = s1 ∨
          s = { s2 with transfer_station := some t1, waiting_time_minutes := some w } := by
        simpa using hs
      rcases hs' with rfl | rfl
      · refine ⟨H1.1, ?_⟩
        intro w' hw'
        rw [H1.2.2.2] at hw'
        exact absurd hw' (by simp)
      · refine ⟨H2.1, ?_⟩
        intro w' hw'
        have : w = w' := by simpa using hw'
        rw [← this]
        exact hwnn
    · obtain ⟨r1, t1, r2, t2, r3, _, _, _, _, hb⟩ := mem_two_transfer_inv hc
      obtain ⟨s1, s2, s3, w1, w2, hs1, hs2, hs3, hw1, hw2, hcEq⟩ :=
        build_connection_with_two_transfers_inv hb
      have H1 := build_segment_facts hv hs1
      have H2 := build_segment_facts hv hs2
      have H3 := build_segment_facts hv hs3
      have hw10 : 0 ≤ calculate_travel_time s1.arrival_time s2.departure_time :=
        calculate_travel_time_nonneg _ H1.2.2.1
      have hw20 : 0 ≤ calculate_travel_time s2.arrival_time s3.departure_time :=
        calculate_travel_time_nonneg _ H2.2.2.1
      have hw1nn : 0 ≤ w1 := by
        rw [hw1, if_neg (not_lt.mpr hw10)]
        exact hw10
      have hw2nn : 0 ≤ w2 := by
        rw [hw2, if_neg (not_lt.mpr hw20)]
        exact hw20
      subst hcEq
      refine ⟨by positivity, ?_⟩
      intro s hs
      have hs' : s = s1 ∨
          s = { s2 with transfer_station := some t1, waiting_time_minutes := some w1 } ∨
          s = { s3 with transfer_station := some t2, waiting_time_minutes := some w2 } := by
        simpa using hs
      rcases hs' with rfl | rfl | rfl
      · refine ⟨H1.1, ?_⟩
        intro w' hw'
        rw [H1.2.2.2] at hw'
        exact absurd hw' (by simp)
      · refine ⟨H2.1, ?_⟩
        intro w' hw'
        have : w1 = w' := by simpa using hw'
        rw [← this]
        exact hw1nn
      · refine ⟨H3.1, ?_⟩
        intro w' hw'
        have : w2 = w' := by simpa using hw'
        rw [← this]
        exact hw2nn

/-- Witness for C5 at `db3` (which has a non-empty transfer phase). -/
theorem c5_witness :
    (∀ dep arr : Nat, calculate_travel_time dep arr =
       if (arr : Int) - (dep : Int) < 0 then (arr : Int) - (dep : Int) + 24 * 60
       else (arr : Int) - (dep : Int)) ∧
    (∀ c ∈ find_direct db3 1 1, 0 ≤ c.travel_time_minutes) ∧
    (∀ c ∈ find_connections_with_transfers db3 1 1,
      0 ≤ c.total_waiting_time_minutes ∧
      ∀ s ∈ c.segments, 0 ≤ s.travel_time_minutes ∧
        ∀ w ∈ s.waiting_time_minutes, 0 ≤ w) :=
  c5_nonnegative_times db3 (by decide) 1 1

/-- A `found` response out of the transfer phase carries an empty direct
list and the sorted transfer list. -/
theorem transfersPhaseWith_found_inv {tf : DB → Int → Int → List TransferConnection}
    {db : DB} {f t : Int} {d : List Connection} {ts : List TransferConnection}
    {n : Nat} {m : String}
    (h : transfersPhaseWith tf db f t = .found d ts n m) :
    d = [] ∧ ts = sortTransfers (tf db f t) := by
  simp only [transfersPhaseWith] at h
  split at h
  · exact absurd h (by simp)
  · injection h with h1 h2 h3 h4
    exact ⟨h1.symm, h2.symm⟩

/-- Any `found` response of the pipeline has its two lists sorted by the
respective keys. -/
theorem getWith_found_sorted {tf : DB → Int → Int → List TransferConnection}
    {db : DB} {f t : Int} {d : List Connection} {ts : List TransferConnection}
    {n : Nat} {m : String}
    (h : getWith tf db f t = .found d ts n m) :
    d.Pairwise (fun a b => a.travel_time_minutes ≤ b.travel_time_minutes) ∧
    ts.Pairwise (fun a b =>
      a.total_travel_time_minutes + a.total_waiting_time_minutes ≤
        b.total_travel_time_minutes + b.total_waiting_time_minutes) := by
  simp only [getWith] at h
  split at h
  · obtain ⟨rfl, rfl⟩ := transfersPhaseWith_found_inv h
    exact ⟨List.Pairwise.nil, sortTransfers_pairwise _⟩
  · split at h
    · obtain ⟨rfl, rfl⟩ := transfersPhaseWith_found_inv h
      exact ⟨List.Pairwise.nil, sortTransfers_pairwise _⟩
    · injection h with h1 h2 h3 h4
      subst h1
      subst h2
      exact ⟨sortDirect_pairwise _, List.Pairwise.nil⟩

/-- C6: in every non-empty (`found`) response, `direct_connections` is
non-decreasing in `travel_time_minutes` and `connections_with_transfers`
is non-decreasing in total travel + waiting time. -/
theorem c6_response_sorted (db : DB) (req : Request) (d : List Connection)
    (ts : List TransferConnection) (n : Nat) (m : String)
    (h : search db req = .found d ts n m) :
    d.Pairwise (fun a b => a.travel_time_minutes ≤ b.travel_time_minutes) ∧
    ts.Pairwise (fun a b =>
      a.total_travel_time_minutes + a.total_waiting_time_minutes ≤
        b.total_travel_time_minutes + b.total_waiting_time_minutes) := by
  simp only [search, searchWith] at h
  split at h
  · exact absurd h (by simp)
  · cases hp : pyToInt (req.from_station.getD "") with
    | none =>
      rw [hp] at h
      exact absurd h (by simp)
    | some fi =>
      cases hq : pyToInt (req.to_station.getD "") with
      | none =>
        rw [hp, hq] at h
        exact absurd h (by simp)
      | some ti =>
        rw [hp, hq] at h
        dsimp only at h
        split at h
        · exact getWith_found_sorted h
        · exact absurd h (by simp)

/-- Witness for C6: the direct response on `db1`. -/
theorem c6_witness :
    (sortDirect (find_direct db1 1 2)).Pairwise
      (fun a b => a.travel_time_minutes ≤ b.travel_time_minutes) ∧
    ([] : List TransferConnection).Pairwise (fun a b =>
      a.total_travel_time_minutes + a.total_waiting_time_minutes ≤
        b.total_travel_time_minutes + b.total_waiting_time_minutes) :=
  c6_response_sorted db1 { from_station := some "1", to_station := some "2" }
    (sortDirect (find_direct db1 1 2)) [] (find_direct db1 1 2).length
    "Direct connections found successfully" (by decide)

/-- The endpoint-station and route fields of a built segment. -/
theorem build_segment_fields {db : DB} {r f t : Int} {s : Segment}
    (h : build_segment db r f t = some s) :
    s.route = r ∧ s.departure_station = f ∧ s.arrival_station = t := by
  obtain ⟨d, a, _, _, _, hEq⟩ := build_segment_inv h
  subst hEq
  exact ⟨rfl, rfl, rfl⟩

/-- C8: every itinerary emitted by the transfer phases has 2 or 3
segments (direct itineraries are single segments by construction),
consecutive segments share the transfer station, no two segments use the
same route, and `transfers_count` = segments − 1. -/
theorem c8_itinerary_invariant (db : DB) (f t : Int) :
    ∀ c ∈ find_connections_with_transfers db f t,
      (1 ≤ c.segments.length ∧ c.segments.length ≤ 3) ∧
      c.segments.Chain' (fun s s' => s.arrival_station = s'.departure_station) ∧
      c.segments.Pairwise (fun s s' => s.route ≠ s'.route) ∧
      c.transfers_count = c.segments.length - 1 := by
  intro c hc
  unfold find_connections_with_transfers at hc
  rw [List.mem_append] at hc
  rcases hc with hc | hc
  · obtain ⟨r1, t1, r2, hne, hb⟩ := mem_one_transfer_inv hc
    obtain ⟨s1, s2, w, hs1, hs2, hw, hcEq⟩ := build_connection_with_transfer_inv hb
    have F1 := build_segment_fields hs1
    have F2 := build_segment_fields hs2
    subst hcEq
    refine ⟨by simp, ?_, ?_, by simp⟩
    · refine List.chain'_cons.mpr ⟨?_, by simp⟩
      show s1.arrival_station = s2.departure_station
      rw [F1.2.2, F2.2.1]
    · refine List.Pairwise.cons ?_ (List.Pairwise.cons (by simp) List.Pairwise.nil)
      intro s hs
      have hs' : s = { s2 with transfer_station := some t1, waiting_time_minutes := some w } := by
        simpa using hs
      subst hs'
      show s1.route ≠ s2.route
      rw [F1.1, F2.1]
      exact Ne.symm hne
  · obtain ⟨r1, t1, r2, t2, r3, hr21, ht2, hr31, hr32, hb⟩ := mem_two_transfer_inv hc
    obtain ⟨s1, s2, s3, w1, w2, hs1, hs2, hs3, hw1, hw2, hcEq⟩ :=
      build_connection_with_two_transfers_inv hb
    have F1 := build_segment_fields hs1
    have F2 := build_segment_fields hs2
    have F3 := build_segment_fields hs3
    subst hcEq
    refine ⟨by simp, ?_, ?_, by simp⟩
    · refine List.chain'_cons.mpr ⟨?_, List.chain'_cons.mpr ⟨?_, by simp⟩⟩
      · show s1.arrival_station = s2.departure_station
        rw [F1.2.2, F2.2.1]
      · show s2.arrival_station = s3.departure_station
        rw [F2.2.2, F3.2.1]
    · refine List.Pairwise.cons ?_
        (List.Pairwise.cons ?_ (List.Pairwise.cons (by simp) List.Pairwise.nil))
      · intro s hs
        have hs' : s = { s2 with transfer_station := some t1, waiting_time_minutes := some w1 } ∨
            s = { s3 with transfer_station := some t2, waiting_time_minutes := some w2 } := by
          simpa using hs
        rcases hs' with rfl | rfl
        · show s1.route ≠ s2.route
          rw [F1.1, F2.1]
          exact Ne.symm hr21
        · show s1.route ≠ s3.route
          rw [F1.1, F3.1]
          exact Ne.symm hr31
      · intro s hs
        have hs' : s = { s3 with transfer_station := some t2, waiting_time_minutes := some w2 } := by
          simpa using hs
        subst hs'
        show s2.route ≠ s3.route
        rw [F2.1, F3.1]
        exact Ne.symm hr32

/-- The itinerary that the one-transfer search on `db3` emits for the
loop request 1 → 1. -/
def tc3 : TransferConnection :=
  { segments := [
      { route := 1, departure_station := 1, arrival_station := 2,
        departure_time := 10, arrival_time := 60, travel_time_minutes := 50,
        distance_km := 5, stops_count := 0,
        route_points := [
          { route := 1, station := 1, sequence := 1, arr := 0, dep := 10, dist := none },
          { route := 1, station := 2, sequence := 2, arr := 60, dep := 70, dist := some 5 } ],
        transfer_station := none, waiting_time_minutes := none },
      { route := 2, departure_station := 2, arrival_station := 1,
        departure_time := 90, arrival_time := 150, travel_time_minutes := 60,
        distance_km := 5, stops_count := 0,
        route_points := [
          { route := 2, station := 2, sequence := 1, arr := 80, dep := 90, dist := none },
          { route := 2, station := 1, sequence := 2, arr := 150, dep := 160, dist := some 5 } ],
        transfer_station := some 2, waiting_time_minutes := some 30 } ],
    total_travel_time_minutes := 110,
    total_waiting_time_minutes := 30,
    total_distance_km := 10,
    total_stops_count := 0,
    transfers_count := 1,
    departure_station := 1,
    arrival_station := 1,
    departure_time := 10,
    arrival_time := 150 }

/-- Witness for C8 at the concrete itinerary `tc3` emitted on `db3`. -/
theorem c8_witness :
    (1 ≤ tc3.segments.length ∧ tc3.segments.length ≤ 3) ∧
    tc3.segments.Chain' (fun s s' => s.arrival_station = s'.departure_station) ∧
    tc3.segments.Pairwise (fun s s' => s.route ≠ s'.route) ∧
    tc3.transfers_count = tc3.segments.length - 1 :=
  c8_itinerary_invariant db3 1 1 tc3 (by decide)

/-- Splitting a filtered sum over a predicate that is a disjoint union of
two predicates. -/
theorem sum_filter_or_disjoint (l : List RP) (g : RP → Nat) (p q r : RP → Bool)
    (hor : ∀ x, p x = (q x || r x)) (hdisj : ∀ x, ¬(q x = true ∧ r x = true)) :
    ((l.filter p).map g).sum = ((l.filter q).map g).sum + ((l.filter r).map g).sum := by
  induction l with
  | nil => rfl
  | cons x xs ih =>
    simp only [List.filter_cons, hor x]
    by_cases hq : q x = true <;> by_cases hr : r x = true
    · exact absurd ⟨hq, hr⟩ (hdisj x)
    · simp only [hq, hr, Bool.true_or, if_true, Bool.false_eq_true, if_false,
        List.map_cons, List.sum_cons, ih]
      omega
    · simp only [hq, hr, Bool.or_true, if_true, Bool.false_eq_true, if_false,
        List.map_cons, List.sum_cons, ih]
      omega
    · simp only [hq, hr, Bool.or_false, Bool.false_eq_true, if_false, ih]

/-- The distance of a built segment is the sum of
`distance_from_previous_km` over the stops whose sequence lies strictly
above the departure's and at most the arrival's. -/
theorem get_route_points_distance (db : DB) (r : Int) (s e : Int) :
    calculate_distance (get_route_points db r s e) s =
      (((routePoints db r).filter
        (fun p => decide (s < p.sequence) && decide (p.sequence ≤ e))).map
        (fun p => p.dist.getD 0)).sum := by
  unfold calculate_distance get_route_points
  rw [List.filter_filter]
  have hf : List.filter
        (fun a => decide (s < a.sequence) && (decide (s ≤ a.sequence) && decide (a.sequence ≤ e)))
        (routePoints db r) =
      List.filter (fun p => decide (s < p.sequence) && decide (p.sequence ≤ e))
        (routePoints db r) := by
    apply List.filter_congr
    intro x _
    by_cases h1 : s < x.sequence <;> by_cases h2 : s ≤ x.sequence <;>
      by_cases h3 : x.sequence ≤ e <;> simp [h1, h2, h3] <;> omega
  rw [hf]

/-- C7: the distance of a segment is the sum of `distance_from_previous`
over stops with sequence in the half-open interval above the departure
and up to the arrival; consequently, for stops A before B before C on
one route, segment(A,C).distance = segment(A,B).distance +
segment(B,C).distance. -/
theorem c7_distance_additive (db : DB) (r A B C : Int) (pa pb pc : RP)
    (hA : findPoint db r A = some pa) (hB : findPoint db r B = some pb)
    (hC : findPoint db r C = some pc)
    (hab : pa.sequence < pb.sequence) (hbc : pb.sequence < pc.sequence) :
    (∀ f t sg, build_segment db r f t = some sg →
      ∃ d a, findPoint db r f = some d ∧ findPoint db r t = some a ∧
        sg.distance_km = (((routePoints db r).filter
          (fun p => decide (d.sequence < p.sequence) && decide (p.sequence ≤ a.sequence))).map
          (fun p => p.dist.getD 0)).sum) ∧
    ∃ sAC sAB sBC, build_segment db r A C = some sAC ∧ build_segment db r A B = some sAB ∧
      build_segment db r B C = some sBC ∧
      sAC.distance_km = sAB.distance_km + sBC.distance_km := by
  constructor
  · intro f t sg hsg
    obtain ⟨d, a, hd, ha, hlt, hEq⟩ := build_segment_inv hsg
    refine ⟨d, a, hd, ha, ?_⟩
    rw [hEq]
    exact get_route_points_distance db r d.sequence a.sequence
  · have hac : pa.sequence < pc.sequence := lt_trans hab hbc
    have eAC : ∃ sg, build_segment db r A C = some sg := by
      unfold build_segment
      rw [hA, hC]
      dsimp only
      rw [if_pos hac]
      exact ⟨_, rfl⟩
    have eAB : ∃ sg, build_segment db r A B = some sg := by
      unfold build_segment
      rw [hA, hB]
      dsimp only
      rw [if_pos hab]
      exact ⟨_, rfl⟩
    have eBC : ∃ sg, build_segment db r B C = some sg := by
      unfold build_segment
      rw [hB, hC]
      dsimp only
      rw [if_pos hbc]
      exact ⟨_, rfl⟩
    obtain ⟨sAC, hsAC⟩ := eAC
    obtain ⟨sAB, hsAB⟩ := eAB
    obtain ⟨sBC, hsBC⟩ := eBC
    refine ⟨sAC, sAB, sBC, hsAC, hsAB, hsBC, ?_⟩
    obtain ⟨d1, a1, hd1, ha1, _, hEq1⟩ := build_segment_inv hsAC
    obtain ⟨d2, a2, hd2, ha2, _, hEq2⟩ := build_segment_inv hsAB
    obtain ⟨d3, a3, hd3, ha3, _, hEq3⟩ := build_segment_inv hsBC
    rw [hA] at hd1 hd2
    rw [hB] at hd3 ha2
    rw [hC] at ha1 ha3
    obtain rfl : pa = d1 := Option.some.inj hd1
    obtain rfl : pa = d2 := Option.some.inj hd2
    obtain rfl : pb = d3 := Option.some.inj hd3
    obtain rfl : pb = a2 := Option.some.inj ha2
    obtain rfl : pc = a1 := Option.some.inj ha1
    obtain rfl : pc = a3 := Option.some.inj ha3
    rw [hEq1, hEq2, hEq3]
    dsimp only
    rw [get_route_points_distance db r pa.sequence pc.sequence,
      get_route_points_distance db r pa.sequence pb.sequence,
      get_route_points_distance db r pb.sequence pc.sequence]
    apply sum_filter_or_disjoint
    · intro x
      by_cases h1 : pa.sequence < x.sequence <;> by_cases h2 : x.sequence ≤ pb.sequence <;>
        by_cases h3 : x.sequence ≤ pc.sequence <;> simp [h1, h2, h3] <;> omega
    · rintro x ⟨hq, hr⟩
      simp only [Bool.and_eq_true, decide_eq_true_eq] at hq hr
      omega

/-- A three-stop route for the C7 witness: 10 → 20 → 30 with distances
7 km and 8 km. -/
def db7 : DB :=
  { stations := [10, 20, 30],
    points := [
      { route := 1, station := 10, sequence := 1, arr := 0, dep := 10, dist := none },
      { route := 1, station := 20, sequence := 2, arr := 30, dep := 35, dist := some 7 },
      { route := 1, station := 30, sequence := 3, arr := 60, dep := 65, dist := some 8 } ] }

/-- Witness for C7 on the three-stop route of `db7`. -/
theorem c7_witness :
    ∃ sAC sAB sBC, build_segment db7 1 10 30 = some sAC ∧
      build_segment db7 1 10 20 = some sAB ∧ build_segment db7 1 20 30 = some sBC ∧
      sAC.distance_km = sAB.distance_km + sBC.distance_km :=
  (c7_distance_additive db7 1 10 20 30
    { route := 1, station := 10, sequence := 1, arr := 0, dep := 10, dist := none }
    { route := 1, station := 20, sequence := 2, arr := 30, dep := 35, dist := some 7 }
    { route := 1, station := 30, sequence := 3, arr := 60, dep := 65, dist := some 8 }
    (by decide) (by decide) (by decide) (by decide) (by decide)).2

/-- The validated pipeline never produces an error response. -/
theorem getWith_not_error (tf : DB → Int → Int → List TransferConnection)
    (db : DB) (f t : Int) : isErr (getWith tf db f t) = false := by
  simp only [getWith, transfersPhaseWith]
  split
  · split
    · rfl
    · rfl
  · split
    · split
      · rfl
      · rfl
    · rfl

/-- C9: the endpoint 400s exactly on a missing/unparseable station id,
404s exactly on well-formed ids with a failing station lookup, returns
the non-error `count 0` response on a valid empty search, and its error
responses are decided before any route-point traversal (they do not
depend on the `RoutePoint` table at all). -/
theorem c9_error_paths (db : DB) (req : Request) :
    ((∃ e, search db req = .badRequest e) ↔
      (falsyParam req.from_station = true ∨ falsyParam req.to_station = true ∨
        pyToInt (req.from_station.getD "") = none ∨
        pyToInt (req.to_station.getD "") = none)) ∧
    ((∃ e, search db req = .notFound e) ↔
      (falsyParam req.from_station = false ∧ falsyParam req.to_station = false ∧
        ∃ fi ti, pyToInt (req.from_station.getD "") = some fi ∧
          pyToInt (req.to_station.getD "") = some ti ∧
          ¬(fi ∈ db.stations ∧ ti ∈ db.stations))) ∧
    (∀ fi ti, pyToInt (req.from_station.getD "") = some fi →
      pyToInt (req.to_station.getD "") = some ti →
      falsyParam req.from_station = false → falsyParam req.to_station = false →
      fi ∈ db.stations → ti ∈ db.stations →
      find_direct db fi ti = [] → find_connections_with_transfers db fi ti = [] →
      search db req = .noResults 0 "No connections found between these stations") ∧
    (∀ ps, isErr (search { stations := db.stations, points := ps } req) =
        isErr (search db req) ∧
      (isErr (search db req) = true →
        search { stations := db.stations, points := ps } req = search db req)) := by
  by_cases hf : falsyParam req.from_station = true
  · have hs : ∀ db' : DB, search db' req =
        .badRequest "Both from_station and to_station parameters are required" := by
      intro db'
      unfold search searchWith
      rw [if_pos (by simp [hf])]
    refine ⟨⟨fun _ => Or.inl hf, fun _ => ⟨_, hs db⟩⟩, ⟨?_, ?_⟩, ?_, ?_⟩
    · rintro ⟨e, he⟩
      rw [hs db] at he
      exact absurd he (by simp)
    · rintro ⟨hf0, -⟩
      rw [hf] at hf0
      exact absurd hf0 (by simp)
    · intro fi ti _ _ hf0 _ _ _ _ _
      rw [hf] at hf0
      exact absurd hf0 (by simp)
    · intro ps
      rw [hs db, hs { stations := db.stations, points := ps }]
      exact ⟨rfl, fun _ => rfl⟩
  · by_cases hg : falsyParam req.to_station = true
    · have hs : ∀ db' : DB, search db' req =
          .badRequest "Both from_station and to_station parameters are required" := by
        intro db'
        unfold search searchWith
        rw [if_pos (by simp [hg])]
      refine ⟨⟨fun _ => Or.inr (Or.inl hg), fun _ => ⟨_, hs db⟩⟩, ⟨?_, ?_⟩, ?_, ?_⟩
      · rintro ⟨e, he⟩
        rw [hs db] at he
        exact absurd he (by simp)
      · rintro ⟨-, hg0, -⟩
        rw [hg] at hg0
        exact absurd hg0 (by simp)
      · intro fi ti _ _ _ hg0 _ _ _ _
        rw [hg] at hg0
        exact absurd hg0 (by simp)
      · intro ps
        rw [hs db, hs { stations := db.stations, points := ps }]
        exact ⟨rfl, fun _ => rfl⟩
    · have hf' : falsyParam req.from_station = false := Bool.eq_false_iff.mpr hf
      have hg' : falsyParam req.to_station = false := Bool.eq_false_iff.mpr hg
      have hs0 : ∀ db' : DB, search db' req =
          (match pyToInt (req.from_station.getD ""), pyToInt (req.to_station.getD "") with
           | some fi, some ti =>
             if (db'.stations.contains fi && db'.stations.contains ti) = true then
               getWith find_connections_with_transfers db' fi ti
             else .notFound "One or both stations not found"
           | _, _ => .badRequest "Station IDs must be integers") := by
        intro db'
        unfold search searchWith
        rw [if_neg (by simp [hf', hg'])]
      cases hp : pyToInt (req.from_station.getD "") with
      | none =>
        have hs : ∀ db' : DB, search db' req = .badRequest "Station IDs must be integers" := by
          intro db'
          rw [hs0 db', hp]
        refine ⟨⟨fun _ => Or.inr (Or.inr (Or.inl rfl)), fun _ => ⟨_, hs db⟩⟩, ⟨?_, ?_⟩, ?_, ?_⟩
        · rintro ⟨e, he⟩
          rw [hs db] at he
          exact absurd he (by simp)
        · rintro ⟨-, -, fi, ti, hpi, -⟩
          exact absurd hpi (by simp)
        · intro fi ti hpi _ _ _ _ _ _ _
          exact absurd hpi (by simp)
        · intro ps
          rw [hs db, hs { stations := db.stations, points := ps }]
          exact ⟨rfl, fun _ => rfl⟩
      | some fi =>
        cases hq : pyToInt (req.to_station.getD "") with
        | none =>
          have hs : ∀ db' : DB, search db' req = .badRequest "Station IDs must be integers" := by
            intro db'
            rw [hs0 db', hp, hq]
          refine ⟨⟨fun _ => Or.inr (Or.inr (Or.inr rfl)), fun _ => ⟨_, hs db⟩⟩, ⟨?_, ?_⟩, ?_, ?_⟩
          · rintro ⟨e, he⟩
            rw [hs db] at he
            exact absurd he (by simp)
          · rintro ⟨-, -, fi', ti', -, hqi, -⟩
            exact absurd hqi (by simp)
          · intro fi' ti' _ hqi _ _ _ _ _ _
            exact absurd hqi (by simp)
          · intro ps
            rw [hs db, hs { stations := db.stations, points := ps }]
            exact ⟨rfl, fun _ => rfl⟩
        | some ti =>
          have hs1 : ∀ db' : DB, search db' req =
              (if (db'.stations.contains fi && db'.stations.contains ti) = true then
                getWith find_connections_with_transfers db' fi ti
              else .notFound "One or both stations not found") := by
            intro db'
            rw [hs0 db', hp, hq]
          by_cases hst : (db.stations.contains fi && db.stations.contains ti) = true
          · have hmem : fi ∈ db.stations ∧ ti ∈ db.stations := by
              rw [Bool.and_eq_true] at hst
              exact ⟨List.elem_iff.mp hst.1, List.elem_iff.mp hst.2⟩
            have hsg : search db req = getWith find_connections_with_transfers db fi ti := by
              rw [hs1 db, if_pos hst]
            refine ⟨⟨?_, ?_⟩, ⟨?_, ?_⟩, ?_, ?_⟩
            · rintro ⟨e, he⟩
              have := getWith_not_error find_connections_with_transfers db fi ti
              rw [← hsg, he] at this
              exact absurd this (by simp [isErr])
            · rintro (hf0 | hg0 | hpi | hqi)
              · rw [hf'] at hf0; exact absurd hf0 (by simp)
              · rw [hg'] at hg0; exact absurd hg0 (by simp)
              · exact absurd hpi (by simp)
              · exact absurd hqi (by simp)
            · rintro ⟨e, he⟩
              have := getWith_not_error find_connections_with_transfers db fi ti
              rw [← hsg, he] at this
              exact absurd this (by simp [isErr])
            · rintro ⟨-, -, fi', ti', hpi, hqi, hnm⟩
              obtain rfl : fi = fi' := Option.some.inj hpi
              obtain rfl : ti = ti' := Option.some.inj hqi
              exact absurd hmem hnm
            · intro fi' ti' hpi hqi _ _ _ _ hdirect htrans
              obtain rfl : fi = fi' := Option.some.inj hpi
              obtain rfl : ti = ti' := Option.some.inj hqi
              rw [hsg]
              unfold getWith
              have htransE : (find_connections_with_transfers db fi ti).isEmpty = true := by
                rw [htrans]
                rfl
              by_cases hc : (find_common_routes db fi ti).isEmpty = true
              · rw [if_pos hc]
                unfold transfersPhaseWith
                rw [if_pos htransE]
              · rw [if_neg hc]
                have h0 : build_connections db (find_common_routes db fi ti) fi ti = [] :=
                  hdirect
                simp only [h0, List.isEmpty_nil, if_true]
                unfold transfersPhaseWith
                rw [if_pos htransE]
            · intro ps
              have hsg2 : search { stations := db.stations, points := ps } req =
                  getWith find_connections_with_transfers { stations := db.stations, points := ps } fi ti := by
                rw [hs1 { stations := db.stations, points := ps }, if_pos hst]
              rw [hsg, hsg2, getWith_not_error, getWith_not_error]
              exact ⟨rfl, fun hx => absurd hx (by simp)⟩
          · have hnm : ¬(fi ∈ db.stations ∧ ti ∈ db.stations) := by
              intro hmem
              apply hst
              rw [Bool.and_eq_true]
              exact ⟨List.elem_iff.mpr hmem.1, List.elem_iff.mpr hmem.2⟩
            have hsn : ∀ db' : DB, db'.stations = db.stations →
                search db' req = .notFound "One or both stations not found" := by
              intro db' hd
              rw [hs1 db', hd, if_neg hst]
            refine ⟨⟨?_, ?_⟩, ⟨?_, ?_⟩, ?_, ?_⟩
            · rintro ⟨e, he⟩
              rw [hsn db rfl] at he
              exact absurd he (by simp)
            · rintro (hf0 | hg0 | hpi | hqi)
              · rw [hf'] at hf0; exact absurd hf0 (by simp)
              · rw [hg'] at hg0; exact absurd hg0 (by simp)
              · exact absurd hpi (by simp)
              · exact absurd hqi (by simp)

            · intro _
              exact ⟨hf', hg', fi, ti, rfl, rfl, hnm⟩
            · intro _
              exact ⟨_, hsn db rfl⟩
            · intro fi' ti' hpi hqi _ _ hmf hmt _ _
              obtain rfl : fi = fi' := Option.some.inj hpi
              obtain rfl : ti = ti' := Option.some.inj hqi
              exact absurd ⟨hmf, hmt⟩ hnm
            · intro ps
              rw [hsn db rfl, hsn { stations := db.stations, points := ps } rfl]
              exact ⟨rfl, fun _ => rfl⟩

/-- Witness for C9: each error path, and the empty valid search, at
concrete requests. -/
theorem c9_witness :
    (∃ e, search db1 { from_station := none, to_station := some "2" } = .badRequest e) ∧
    (∃ e, search db1 { from_station := some "1", to_station := some "abc" } = .badRequest e) ∧
    (∃ e, search db1 { from_station := some "1", to_station := some "99" } = .notFound e) ∧
    search dbNoConn { from_station := some "1", to_station := some "2" } =
      .noResults 0 "No connections found between these stations" :=
  ⟨(c9_error_paths db1 { from_station := none, to_station := some "2" }).1.mpr
      (Or.inl (by decide)),
   (c9_error_paths db1 { from_station := some "1", to_station := some "abc" }).1.mpr
      (Or.inr (Or.inr (Or.inr (by decide)))),
   (c9_error_paths db1 { from_station := some "1", to_station := some "99" }).2.1.mpr
      ⟨by decide, by decide, 1, 99, by decide, by decide, by decide⟩,
   (c9_error_paths dbNoConn { from_station := some "1", to_station := some "2" }).2.2.1
      1 2 (by decide) (by decide) (by decide) (by decide) (by decide) (by decide)
      (by decide) (by decide)⟩

/-- A `noResults` response always carries count 0 and the fixed message. -/
theorem getWith_noResults_inv {tf : DB → Int → Int → List TransferConnection}
    {db : DB} {f t : Int} {cnt : Nat} {m : String}
    (h : getWith tf db f t = .noResults cnt m) :
    cnt = 0 ∧ m = "No connections found between these stations" := by
  simp only [getWith, transfersPhaseWith] at h
  split at h
  · split at h
    · injection h with h1 h2
      exact ⟨h1.symm, h2.symm⟩
    · exact absurd h (by simp)
  · split at h
    · split at h
      · injection h with h1 h2
        exact ⟨h1.symm, h2.symm⟩
      · exact absurd h (by simp)
    · exact absurd h (by simp)

/-- C10: a search that finds no connections answers 200 with body keys
`connections`, `count`, `message` (and count 0), while every non-empty
(`found`) response has the keys `direct_connections`,
`connections_with_transfers`, `count`, `message` — the two success
shapes differ. -/
theorem c10_empty_response_shape (db : DB) (req : Request) (cnt : Nat) (m : String)
    (h : search db req = .noResults cnt m) :
    bodyKeys (search db req) = ["connections", "count", "message"] ∧
    "direct_connections" ∉ bodyKeys (search db req) ∧
    "connections_with_transfers" ∉ bodyKeys (search db req) ∧
    cnt = 0 ∧
    (∀ d ts n m', bodyKeys (SearchResponse.found d ts n m') =
        ["direct_connections", "connections_with_transfers", "count", "message"] ∧
      "connections" ∉ bodyKeys (SearchResponse.found d ts n m')) := by
  have hcnt : cnt = 0 := by
    simp only [search, searchWith] at h
    split at h
    · exact absurd h (by simp)
    · cases hp : pyToInt (req.from_station.getD "") with
      | none =>
        rw [hp] at h
        exact absurd h (by simp)
      | some fi =>
        cases hq : pyToInt (req.to_station.getD "") with
        | none =>
          rw [hp, hq] at h
          exact absurd h (by simp)
        | some ti =>
          rw [hp, hq] at h
          dsimp only at h
          split at h
          · exact (getWith_noResults_inv h).1
          · exact absurd h (by simp)
  rw [h]
  refine ⟨rfl, ?_, ?_, hcnt, fun d ts n m' => ⟨rfl, ?_⟩⟩
  · show "direct_connections" ∉ (["connections", "count", "message"] : List String)
    decide
  · show "connections_with_transfers" ∉ (["connections", "count", "message"] : List String)
    decide
  · show "connections" ∉
      (["direct_connections", "connections_with_transfers", "count", "message"] : List String)
    decide

/-- Witness for C10 on the empty store `dbNoConn`. -/
theorem c10_witness :
    bodyKeys (search dbNoConn { from_station := some "1", to_station := some "2" }) =
      ["connections", "count", "message"] ∧
    "direct_connections" ∉
      bodyKeys (search dbNoConn { from_station := some "1", to_station := some "2" }) ∧
    "connections_with_transfers" ∉
      bodyKeys (search dbNoConn { from_station := some "1", to_station := some "2" }) ∧
    (0 : Nat) = 0 ∧
    (∀ d ts n m', bodyKeys (SearchResponse.found d ts n m') =
        ["direct_connections", "connections_with_transfers", "count", "message"] ∧
      "connections" ∉ bodyKeys (SearchResponse.found d ts n m')) :=
  c10_empty_response_shape dbNoConn { from_station := some "1", to_station := some "2" }
    0 "No connections found between these stations" (by decide)

end TransportSearch
